import Mathlib

/-!
Verification of the svirl geometry / solver-orchestration layer.

The development shallowly embeds the two source files of the repository:
`svirl/mesh/grid.py` (staggered lattices, material-tiling mask, link-activity
flags) and `svirl/solvers/solvers.py` (the solver orchestration facade).
Machine floats are embedded as exact rationals (facade-level values) or reals
(interpolation); numpy arrays as shape-carrying structures over total index
functions; the CUDA kernels, whose source is not part of the analyzed files,
are modelled from the specification and marked as such.
-/

/-- Model of `np.linspace(a, b, num=n, endpoint=True)`: `n` evenly spaced
samples from `a` to `b` inclusive.  For `n = 1` numpy returns `[a]`, which the
formula also yields since division by zero is zero in `ℚ`. -/
def linspace (a b : ℚ) (n : ℕ) : List ℚ :=
  (List.range n).map (fun (i : ℕ) => a + (i : ℚ) * (b - a) / ((n - 1 : ℕ) : ℚ))

theorem linspace_length (a b : ℚ) (n : ℕ) : (linspace a b n).length = n := by
  rw [linspace, List.length_map, List.length_range]

theorem linspace_head (a b : ℚ) (n : ℕ) (h : 1 ≤ n) :
    (linspace a b n).head? = some a := by
  cases n with
  | zero => omega
  | succ m =>
    rw [linspace, List.range_succ_eq_map]
    simp

theorem linspace_getLast (a b : ℚ) (n : ℕ) (h : 2 ≤ n) :
    (linspace a b n).getLast? = some b := by
  obtain ⟨m, rfl⟩ : ∃ m, n = m + 2 := ⟨n - 2, by omega⟩
  rw [linspace, List.range_succ, List.map_append, List.map_singleton,
    List.getLast?_concat]
  have hcast : ((m + 2 - 1 : ℕ) : ℚ) = (m : ℚ) + 1 := by push_cast; ring
  have hne : ((m : ℚ) + 1) ≠ 0 := by positivity
  rw [hcast]
  congr 1
  push_cast
  field_simp

/-- Configuration provider `svirl.config`: immutable domain extents, lattice
counts and spacings consumed by `Grid`. -/
structure Cfg where
  Nx : ℕ
  Ny : ℕ
  Nxa : ℕ
  Nya : ℕ
  Nxb : ℕ
  Nyb : ℕ
  Nxc : ℕ
  Nyc : ℕ
  Lx : ℚ
  Ly : ℚ
  dx : ℚ
  dy : ℚ

/-- Source `Grid.xy`: coordinates of grid vertices,
`(linspace(0, Lx, Nx), linspace(0, Ly, Ny))`. -/
def Grid.xy (c : Cfg) : List ℚ × List ℚ :=
  (linspace 0 c.Lx c.Nx, linspace 0 c.Ly c.Ny)

/-- Source `Grid.xy_a`: coordinates of horizontal edge centers,
x offset by half a spacing at both ends, y node-aligned. -/
def Grid.xy_a (c : Cfg) : List ℚ × List ℚ :=
  (linspace ((1/2 : ℚ) * c.dx) (c.Lx - (1/2 : ℚ) * c.dx) c.Nxa,
   linspace 0 c.Ly c.Nya)

/-- Source `Grid.xy_b`: coordinates of vertical edge centers,
x node-aligned, y offset by half a spacing at both ends. -/
def Grid.xy_b (c : Cfg) : List ℚ × List ℚ :=
  (linspace 0 c.Lx c.Nxb,
   linspace ((1/2 : ℚ) * c.dy) (c.Ly - (1/2 : ℚ) * c.dy) c.Nyb)

/-- Source `Grid.xy_c`: coordinates of cell centers, both axes offset by half
a spacing at both ends. -/
def Grid.xy_c (c : Cfg) : List ℚ × List ℚ :=
  (linspace ((1/2 : ℚ) * c.dx) (c.Lx - (1/2 : ℚ) * c.dx) c.Nxc,
   linspace ((1/2 : ℚ) * c.dy) (c.Ly - (1/2 : ℚ) * c.dy) c.Nyc)

/-- Source `Grid.xy_c_grid`: `np.meshgrid(x, y, indexing='ij')` of the
cell-center coordinates, as index functions (first axis varies along x). -/
def Grid.xy_c_grid (c : Cfg) : (ℕ → ℕ → ℚ) × (ℕ → ℕ → ℚ) :=
  (fun i _ => ((Grid.xy_c c).1).getD i 0, fun _ j => ((Grid.xy_c c).2).getD j 0)

/-- Property bundle for claim C9: every 1D coordinate sequence has exactly the
configured count; node-aligned axes run from 0 to the extent inclusive;
cell/edge-offset axes run from half a spacing to half a spacing inside the
extent. -/
def LatticeSpec (c : Cfg) : Prop :=
  ((Grid.xy c).1.length = c.Nx ∧ (Grid.xy c).2.length = c.Ny ∧
   (Grid.xy_a c).1.length = c.Nxa ∧ (Grid.xy_a c).2.length = c.Nya ∧
   (Grid.xy_b c).1.length = c.Nxb ∧ (Grid.xy_b c).2.length = c.Nyb ∧
   (Grid.xy_c c).1.length = c.Nxc ∧ (Grid.xy_c c).2.length = c.Nyc) ∧
  ((Grid.xy c).1.head? = some 0 ∧ (Grid.xy c).1.getLast? = some c.Lx ∧
   (Grid.xy c).2.head? = some 0 ∧ (Grid.xy c).2.getLast? = some c.Ly ∧
   (Grid.xy_a c).2.head? = some 0 ∧ (Grid.xy_a c).2.getLast? = some c.Ly ∧
   (Grid.xy_b c).1.head? = some 0 ∧ (Grid.xy_b c).1.getLast? = some c.Lx) ∧
  ((Grid.xy_a c).1.head? = some ((1/2 : ℚ) * c.dx) ∧
   (Grid.xy_a c).1.getLast? = some (c.Lx - (1/2 : ℚ) * c.dx) ∧
   (Grid.xy_b c).2.head? = some ((1/2 : ℚ) * c.dy) ∧
   (Grid.xy_b c).2.getLast? = some (c.Ly - (1/2 : ℚ) * c.dy) ∧
   (Grid.xy_c c).1.head? = some ((1/2 : ℚ) * c.dx) ∧
   (Grid.xy_c c).1.getLast? = some (c.Lx - (1/2 : ℚ) * c.dx) ∧
   (Grid.xy_c c).2.head? = some ((1/2 : ℚ) * c.dy) ∧
   (Grid.xy_c c).2.getLast? = some (c.Ly - (1/2 : ℚ) * c.dy))

/-- C9: for all four lattice accessors (node, a, b, c) the generated 1D
coordinate sequence along each axis has exactly the configured count;
node-aligned axes start at 0 and end exactly at the configured extent, while
cell/edge-offset axes start at half a spacing step and end half a spacing step
inside the extent (all axes having at least two points). -/
theorem grid_lattice_counts_and_endpoints (c : Cfg)
    (h : 2 ≤ c.Nx ∧ 2 ≤ c.Ny ∧ 2 ≤ c.Nxa ∧ 2 ≤ c.Nya ∧
         2 ≤ c.Nxb ∧ 2 ≤ c.Nyb ∧ 2 ≤ c.Nxc ∧ 2 ≤ c.Nyc) :
    LatticeSpec c := by
  obtain ⟨h1, h2, h3, h4, h5, h6, h7, h8⟩ := h
  refine ⟨⟨?_, ?_, ?_, ?_, ?_, ?_, ?_, ?_⟩,
          ⟨?_, ?_, ?_, ?_, ?_, ?_, ?_, ?_⟩,
          ⟨?_, ?_, ?_, ?_, ?_, ?_, ?_, ?_⟩⟩ <;>
    first
      | exact linspace_length _ _ _
      | exact linspace_head _ _ _ (by omega)
      | exact linspace_getLast _ _ _ (by omega)

/-- Concrete configuration used by the witnesses: a 2 × 2 cell domain of unit
extent (`Nx = Ny = 3`, `Nxc = Nyc = 2`, spacing 1/2). -/
def c0 : Cfg :=
  { Nx := 3, Ny := 3, Nxa := 2, Nya := 3, Nxb := 3, Nyb := 2,
    Nxc := 2, Nyc := 2, Lx := 1, Ly := 1, dx := 1/2, dy := 1/2 }

/-- Witness for C9 at the concrete configuration `c0`. -/
theorem grid_lattice_counts_and_endpoints_witness : LatticeSpec c0 :=
  grid_lattice_counts_and_endpoints c0 (by decide)

/-- Host-resident boolean numpy array: a shape together with a total index
function (indices outside the shape are never consulted by the embedded
operations). -/
structure NpBoolArr where
  shape : ℕ × ℕ
  data : ℕ → ℕ → Bool

/-- Python exceptions raised by the embedded methods. -/
inductive PyExc where
  | assertionError : PyExc
deriving DecidableEq

/-- Dual-resident integer `GArray` (the `_flags` storage): a device buffer, a
host buffer, and the dirty bit set by `need_dtoh_sync`. -/
structure GArrayInt where
  shape : ℕ × ℕ
  d : ℕ → ℕ → Int
  h : ℕ → ℕ → Int
  needs_dtoh : Bool

/-- Source `GArray.need_dtoh_sync`: mark the host copy stale. -/
def GArrayInt.need_dtoh_sync (g : GArrayInt) : GArrayInt :=
  { g with needs_dtoh := true }

/-- Source `GArray.sync`: copy device to host when the host copy is stale. -/
def GArrayInt.sync (g : GArrayInt) : GArrayInt :=
  if g.needs_dtoh then { g with h := g.d, needs_dtoh := false } else g

theorem GArrayInt.sync_shape (g : GArrayInt) : g.sync.shape = g.shape := by
  unfold GArrayInt.sync
  split <;> rfl

/-- Ghost record of one accelerator kernel launch: which kernel ran and
whether the mask handle passed to it was the null sentinel. -/
inductive KernelEvent where
  | set_flags (mask_is_null : Bool)
  | clear_flags (mask_is_null : Bool)
deriving DecidableEq

/-- State of a `Grid` object: the transient mask buffer `_mt`, the private
`__have_material_tiling` flag, the dual-resident `_flags` array, and the ghost
trace of kernel launches. -/
structure GridState where
  mt : Option NpBoolArr
  have_material_tiling : Bool
  flags : GArrayInt
  launched : List KernelEvent

/-- Source `Grid.material_tiling_h`: the mask buffer's accelerator handle, or
the null sentinel `np.uintp(0)` (modelled as `none`) when no buffer exists. -/
def Grid.material_tiling_h (s : GridState) : Option NpBoolArr :=
  match s.mt with
  | some m => some m
  | none => none

theorem Grid.material_tiling_h_eq (s : GridState) :
    Grid.material_tiling_h s = s.mt := by
  unfold Grid.material_tiling_h
  cases s.mt <;> rfl

/-- Modelled from the spec: the flag value denoting an all-material link state
(the `clear_flags`/`set_flags` CUDA kernel sources are not among the analyzed
files).  It is nonzero so that the boolean view of the flags reads
"material". -/
def allMaterialFlag : Int := 1

/-- Modelled from the spec: the `clear_flags` kernel "resets the link-activity
flags to the all-material state" regardless of its arguments. -/
def clear_flags_kernel (mask : Option NpBoolArr) (flags_d : ℕ → ℕ → Int) :
    ℕ → ℕ → Int :=
  fun _ _ => allMaterialFlag

/-- Modelled from the spec: the `set_flags` kernel derives per-node
link-activity bits from the adjacent cells of the active mask; its behavior is
specified only for an active mask, so with the null sentinel handle it is
modelled as leaving the flags buffer unchanged, consistent with the spec's
"no mask set ⇒ the boolean view is all-true". -/
def set_flags_kernel (mask : Option NpBoolArr) (flags_d : ℕ → ℕ → Int) :
    ℕ → ℕ → Int :=
  match mask with
  | none => flags_d
  | some m => fun i j =>
      if (1 ≤ i ∧ 1 ≤ j ∧ m.data (i-1) (j-1) = true) ∨
         (i < m.shape.1 ∧ 1 ≤ j ∧ m.data i (j-1) = true) ∨
         (1 ≤ i ∧ j < m.shape.2 ∧ m.data (i-1) j = true) ∨
         (i < m.shape.1 ∧ j < m.shape.2 ∧ m.data i j = true)
      then allMaterialFlag else 0

/-- Source `Grid.__free_mt`: free the mask buffer and clear the status flag,
a no-op when no buffer exists. -/
def Grid.free_mt (s : GridState) : GridState :=
  match s.mt with
  | some _ => { s with mt := none, have_material_tiling := false }
  | none => s

/-- Source `Grid._set_flags`: launch the `set_flags` kernel on the device
flags buffer with the current mask handle, then mark the flags dirty and
synchronize them to the host. -/
def Grid.set_flags_step (s : GridState) : GridState :=
  let fl := { s.flags with
                d := set_flags_kernel (Grid.material_tiling_h s) s.flags.d }
  let fl := fl.need_dtoh_sync
  let fl := fl.sync
  { s with
      flags := fl,
      launched := s.launched ++
        [KernelEvent.set_flags (Grid.material_tiling_h s).isNone] }

/-- Source `Grid._clear_flags`: launch the `clear_flags` kernel on the device
flags buffer, then mark the flags dirty and synchronize them to the host. -/
def Grid.clear_flags_step (s : GridState) : GridState :=
  let fl := { s.flags with
                d := clear_flags_kernel (Grid.material_tiling_h s) s.flags.d }
  let fl := fl.need_dtoh_sync
  let fl := fl.sync
  { s with
      flags := fl,
      launched := s.launched ++
        [KernelEvent.clear_flags (Grid.material_tiling_h s).isNone] }

/-- Argument of the `material_tiling` setter: a boolean array, a callable
predicate over the cell-center coordinate grid, or Python `None`. -/
inductive MTInput where
  | arr (m : NpBoolArr)
  | func (f : ℚ → ℚ → Bool)
  | null

/-- Resolution step of the setter: a callable is evaluated elementwise on
`xy_c_grid` (yielding a cell-center-shaped boolean array), an array passes
through, `None` stays `None`. -/
def Grid.resolve_mt_input (c : Cfg) (input : MTInput) : Option NpBoolArr :=
  match input with
  | MTInput.arr m => some m
  | MTInput.func f =>
      some ⟨(c.Nxc, c.Nyc),
            fun i j => f ((Grid.xy_c_grid c).1 i j) ((Grid.xy_c_grid c).2 i j)⟩
  | MTInput.null => none

/-- Source `Grid.material_tiling` setter: resolve the input; a non-null mask
is shape-checked and stored in a fresh device buffer with the status flag set,
a null mask frees any existing buffer and launches the `clear_flags` kernel;
in both branches the `set_flags` kernel is then launched and the mask buffer
is unconditionally freed. -/
def Grid.material_tiling_set (c : Cfg) (s : GridState) (input : MTInput) :
    GridState × Except PyExc Unit :=
  match Grid.resolve_mt_input c input with
  | some mt =>
      if mt.shape = (c.Nxc, c.Nyc) then
        let s1 := { s with mt := some mt, have_material_tiling := true }
        (Grid.free_mt (Grid.set_flags_step s1), Except.ok ())
      else
        (s, Except.error PyExc.assertionError)
  | none =>
      let s1 := Grid.clear_flags_step (Grid.free_mt s)
      (Grid.free_mt (Grid.set_flags_step s1), Except.ok ())

/-- Source `Grid.material_tiling` getter: synchronize the flags to the host
and return a boolean copy (`astype(bool)`: an entry is true iff the integer
flag is nonzero). -/
def Grid.material_tiling_get (s : GridState) : GridState × NpBoolArr :=
  let fl := s.flags.sync
  ({ s with flags := fl },
   ⟨fl.shape, fun i j => decide (fl.h i j ≠ 0)⟩)

/-- Source `Grid._get_material_tiling_at_nodes`: pads the cell-center mask to
node shape in the four directions and ORs the copies; it dereferences `_mt`,
so with no active mask buffer it fails (modelled as `none`). -/
def Grid.get_material_tiling_at_nodes (c : Cfg) (s : GridState) :
    Option NpBoolArr :=
  match s.mt with
  | none => none
  | some m =>
      some ⟨(c.Nx, c.Ny), fun i j =>
        (decide (1 ≤ i) && decide (1 ≤ j) && m.data (i-1) (j-1)) ||
        (decide (i < c.Nxc) && decide (1 ≤ j) && m.data i (j-1)) ||
        (decide (1 ≤ i) && decide (j < c.Nyc) && m.data (i-1) j) ||
        (decide (i < c.Nxc) && decide (j < c.Nyc) && m.data i j)⟩

/-- State of a freshly allocated `Grid` before `__init__` assigns
`material_tiling`: no mask buffer, status flag false, zero-initialized flags
array of node shape. -/
def Grid.initRaw (c : Cfg) : GridState :=
  { mt := none, have_material_tiling := false,
    flags := { shape := (c.Nx, c.Ny), d := fun _ _ => 0, h := fun _ _ => 0,
               needs_dtoh := false },
    launched := [] }

/-- Source `Grid.__init__`: allocate the flags array and run the
`material_tiling` setter on the configured initial mask. -/
def Grid.init (c : Cfg) (input : MTInput) : GridState × Except PyExc Unit :=
  Grid.material_tiling_set c (Grid.initRaw c) input

/-- Reachable `Grid` states: those produced by construction followed by any
sequence of the public mutating operations (the setter and the getter's
host synchronization). -/
inductive Grid.Reachable (c : Cfg) : GridState → Prop where
  | init (input : MTInput) : Grid.Reachable c (Grid.init c input).1
  | set (s : GridState) (input : MTInput) : Grid.Reachable c s →
      Grid.Reachable c (Grid.material_tiling_set c s input).1
  | get (s : GridState) : Grid.Reachable c s →
      Grid.Reachable c (Grid.material_tiling_get s).1

theorem Grid.setter_preserves_core (c : Cfg) (s : GridState)
    (h1 : s.mt = none) (h2 : s.have_material_tiling = false)
    (h3 : s.flags.shape = (c.Nx, c.Ny)) (input : MTInput) :
    (Grid.material_tiling_set c s input).1.mt = none ∧
    (Grid.material_tiling_set c s input).1.have_material_tiling = false ∧
    (Grid.material_tiling_set c s input).1.flags.shape = (c.Nx, c.Ny) := by
  unfold Grid.material_tiling_set
  cases hres : Grid.resolve_mt_input c input with
  | some m =>
      by_cases hs : m.shape = (c.Nxc, c.Nyc)
      · simp only [hs, if_true]
        simp [Grid.free_mt, Grid.set_flags_step, GArrayInt.need_dtoh_sync,
          GArrayInt.sync, h3]
      · simp [hs, h1, h2, h3]
  | none =>
      simp only []
      simp [Grid.free_mt, Grid.clear_flags_step, Grid.set_flags_step,
        GArrayInt.need_dtoh_sync, GArrayInt.sync, h1, h2, h3]

theorem Grid.reachable_core (c : Cfg) (s : GridState) (h : Grid.Reachable c s) :
    s.mt = none ∧ s.have_material_tiling = false ∧
    s.flags.shape = (c.Nx, c.Ny) := by
  induction h with
  | init input => exact Grid.setter_preserves_core c (Grid.initRaw c) rfl rfl rfl input
  | set s input hs ih => exact Grid.setter_preserves_core c s ih.1 ih.2.1 ih.2.2 input
  | get s hs ih =>
      refine ⟨ih.1, ih.2.1, ?_⟩
      simpa [Grid.material_tiling_get, GArrayInt.sync_shape] using ih.2.2

/-- Concrete reachable grid state: the state of `Grid(par)` constructed under
`c0` with `cfg.material_tiling = None`. -/
def g0 : GridState := (Grid.init c0 MTInput.null).1

theorem g0_reachable : Grid.Reachable c0 g0 :=
  Grid.Reachable.init MTInput.null

/-- C4: in every reachable engine state, the mask-buffer accelerator handle is
the null sentinel if and only if `have_material_tiling()` is false. -/
theorem material_tiling_h_null_iff_no_tiling (c : Cfg) (s : GridState)
    (h : Grid.Reachable c s) :
    Grid.material_tiling_h s = none ↔ s.have_material_tiling = false := by
  obtain ⟨h1, h2, -⟩ := Grid.reachable_core c s h
  simp [Grid.material_tiling_h_eq, h1, h2]

/-- Witness for C4 at the concrete reachable state `g0`. -/
theorem material_tiling_h_null_iff_no_tiling_witness :
    Grid.material_tiling_h g0 = none ↔ g0.have_material_tiling = false :=
  material_tiling_h_null_iff_no_tiling c0 g0 g0_reachable

/-- C3: whatever input the `material_tiling` setter is given (array, callable
or null), on return the mask buffer has been freed, `have_material_tiling()`
is false and `material_tiling_h()` is the null sentinel; moreover in the
pre-call (reachable) state the node-mask expansion query's "mask active"
precondition is unsatisfiable. -/
theorem material_tiling_set_frees_mask (c : Cfg) (s : GridState)
    (h : Grid.Reachable c s) (input : MTInput) :
    ((Grid.material_tiling_set c s input).2 = Except.ok () →
        (Grid.material_tiling_set c s input).1.mt = none ∧
        (Grid.material_tiling_set c s input).1.have_material_tiling = false ∧
        Grid.material_tiling_h (Grid.material_tiling_set c s input).1 = none) ∧
    Grid.get_material_tiling_at_nodes c s = none := by
  obtain ⟨h1, h2, h3⟩ := Grid.reachable_core c s h
  constructor
  · intro hok
    obtain ⟨p1, p2, -⟩ := Grid.setter_preserves_core c s h1 h2 h3 input
    exact ⟨p1, p2, by simp [Grid.material_tiling_h_eq, p1]⟩
  · simp [Grid.get_material_tiling_at_nodes, h1]

/-- Witness for C3: a null set on the concrete reachable state `g0`. -/
theorem material_tiling_set_frees_mask_witness :
    (Grid.material_tiling_set c0 g0 MTInput.null).1.mt = none ∧
    (Grid.material_tiling_set c0 g0 MTInput.null).1.have_material_tiling = false ∧
    Grid.material_tiling_h (Grid.material_tiling_set c0 g0 MTInput.null).1 = none ∧
    Grid.get_material_tiling_at_nodes c0 g0 = none := by
  have h := material_tiling_set_frees_mask c0 g0 g0_reachable MTInput.null
  have hok : (Grid.material_tiling_set c0 g0 MTInput.null).2 = Except.ok () := rfl
  exact ⟨(h.1 hok).1, (h.1 hok).2.1, (h.1 hok).2.2, h.2⟩

/-- C1 counterexample: under the concrete configuration `c0` (cell-center
shape (2, 2)) the getter on a freshly constructed grid returns an array of
node shape (3, 3), not of cell-center shape. -/
theorem material_tiling_get_shape_ne_cell_shape :
    ((Grid.material_tiling_get g0).2).shape ≠ (c0.Nxc, c0.Nyc) := by decide

/-- C1 (amended): reading the `material_tiling` getter first forces a host
synchronization of the flags storage and returns the boolean view of the
synchronized host flags as an array of node shape (Nx, Ny) — not cell-center
shape; when no exclusion mask is set (a null set), every entry reads true
("fully material"). -/
theorem material_tiling_get_spec (c : Cfg) (s : GridState)
    (h : Grid.Reachable c s) :
    (Grid.material_tiling_get s).1 = { s with flags := s.flags.sync } ∧
    ((Grid.material_tiling_get s).2).shape = (c.Nx, c.Ny) ∧
    (∀ i j, ((Grid.material_tiling_get s).2).data i j
        = decide (s.flags.sync.h i j ≠ 0)) ∧
    (∀ input, Grid.resolve_mt_input c input = none → ∀ i j,
        ((Grid.material_tiling_get
            (Grid.material_tiling_set c s input).1).2).data i j = true) := by
  obtain ⟨h1, h2, h3⟩ := Grid.reachable_core c s h
  refine ⟨rfl, ?_, fun i j => rfl, ?_⟩
  · show s.flags.sync.shape = (c.Nx, c.Ny)
    rw [GArrayInt.sync_shape, h3]
  · intro input hres i j
    simp [Grid.material_tiling_set, hres, Grid.free_mt, h1,
      Grid.clear_flags_step, Grid.set_flags_step, Grid.material_tiling_h,
      GArrayInt.need_dtoh_sync, GArrayInt.sync, Grid.material_tiling_get,
      clear_flags_kernel, set_flags_kernel, allMaterialFlag]

/-- Witness for the amended C1 at the concrete reachable state `g0`. -/
theorem material_tiling_get_spec_witness :
    (Grid.material_tiling_get g0).1 = { g0 with flags := g0.flags.sync } ∧
    ((Grid.material_tiling_get g0).2).shape = (c0.Nx, c0.Ny) ∧
    ((Grid.material_tiling_get g0).2).data 0 0
      = decide (g0.flags.sync.h 0 0 ≠ 0) ∧
    ((Grid.material_tiling_get
        (Grid.material_tiling_set c0 g0 MTInput.null).1).2).data 0 0 = true := by
  have h := material_tiling_get_spec c0 g0 g0_reachable
  exact ⟨h.1, h.2.1, h.2.2.1 0 0, h.2.2.2 MTInput.null rfl 0 0⟩

/-- Observable state of a grid object: mask buffer, status flag and flags
array (the ghost launch trace is instrumentation, not object state). -/
def GridState.obs (s : GridState) : Option NpBoolArr × Bool × GArrayInt :=
  (s.mt, s.have_material_tiling, s.flags)

theorem clear_flags_kernel_const (mask : Option NpBoolArr)
    (flags_d : ℕ → ℕ → Int) :
    clear_flags_kernel mask flags_d = fun _ _ => allMaterialFlag := rfl

/-- C2 counterexample: a null set — no mask is active, the handle passed is
the null sentinel — nevertheless launches the `set_flags` kernel. -/
theorem material_tiling_null_set_launches_set_flags :
    g0.have_material_tiling = false ∧
    KernelEvent.set_flags true ∈
      ((Grid.material_tiling_set c0 g0 MTInput.null).1).launched := by decide

/-- C2 (amended): a null `material_tiling` set frees any existing mask buffer,
clears `have_material_tiling`, launches the clear-flags kernel, and then
launches the set-flags kernel unconditionally — also on this null path, with
the null mask handle — rather than only when a mask is active; calling the
null set twice leaves the same observable state as calling it once. -/
theorem material_tiling_null_set_spec (c : Cfg) (s : GridState)
    (hc : s.mt = none → s.have_material_tiling = false) :
    (Grid.material_tiling_set c s MTInput.null).2 = Except.ok () ∧
    (Grid.material_tiling_set c s MTInput.null).1.mt = none ∧
    (Grid.material_tiling_set c s MTInput.null).1.have_material_tiling = false ∧
    (Grid.material_tiling_set c s MTInput.null).1.launched
      = s.launched ++ [KernelEvent.clear_flags true, KernelEvent.set_flags true] ∧
    ((Grid.material_tiling_set c
        (Grid.material_tiling_set c s MTInput.null).1 MTInput.null).1).obs
      = ((Grid.material_tiling_set c s MTInput.null).1).obs := by
  cases hsm : s.mt with
  | none =>
      have hv := hc hsm
      simp [Grid.material_tiling_set, Grid.resolve_mt_input, Grid.free_mt, hsm,
        hv, Grid.clear_flags_step, Grid.set_flags_step, Grid.material_tiling_h,
        GArrayInt.need_dtoh_sync, GArrayInt.sync, clear_flags_kernel_const,
        set_flags_kernel, GridState.obs]
  | some m =>
      simp [Grid.material_tiling_set, Grid.resolve_mt_input, Grid.free_mt, hsm,
        Grid.clear_flags_step, Grid.set_flags_step, Grid.material_tiling_h,
        GArrayInt.need_dtoh_sync, GArrayInt.sync, clear_flags_kernel_const,
        set_flags_kernel, GridState.obs]

/-- Witness for the amended C2 at the concrete reachable state `g0`. -/
theorem material_tiling_null_set_spec_witness :
    (Grid.material_tiling_set c0 g0 MTInput.null).2 = Except.ok () ∧
    (Grid.material_tiling_set c0 g0 MTInput.null).1.mt = none ∧
    (Grid.material_tiling_set c0 g0 MTInput.null).1.have_material_tiling = false ∧
    (Grid.material_tiling_set c0 g0 MTInput.null).1.launched
      = g0.launched ++ [KernelEvent.clear_flags true, KernelEvent.set_flags true] ∧
    ((Grid.material_tiling_set c0
        (Grid.material_tiling_set c0 g0 MTInput.null).1 MTInput.null).1).obs
      = ((Grid.material_tiling_set c0 g0 MTInput.null).1).obs :=
  material_tiling_null_set_spec c0 g0
    (fun _ => (Grid.reachable_core c0 g0 g0_reachable).2.1)

/-- C6: the `material_tiling` setter rejects a boolean array whose shape is
not (Nxc, Nyc) with an assertion error before any state mutation or kernel
launch: the returned state is the prior state unchanged (mask buffer, status
flag, flags array and launch trace included). -/
theorem material_tiling_set_invalid_shape_rejected (c : Cfg) (s : GridState)
    (m : NpBoolArr) (hm : m.shape ≠ (c.Nxc, c.Nyc)) :
    Grid.material_tiling_set c s (MTInput.arr m)
      = (s, Except.error PyExc.assertionError) := by
  simp [Grid.material_tiling_set, Grid.resolve_mt_input, hm]

/-- Shape-(Nxc+1, Nyc) boolean array, the invalid shape named by C6. -/
def m0 : NpBoolArr := ⟨(3, 2), fun _ _ => true⟩

/-- Witness for C6: the (3, 2)-shaped array `m0` against cell-center shape
(2, 2) at the concrete reachable state `g0`. -/
theorem material_tiling_set_invalid_shape_rejected_witness :
    Grid.material_tiling_set c0 g0 (MTInput.arr m0)
      = (g0, Except.error PyExc.assertionError) :=
  material_tiling_set_invalid_shape_rejected c0 g0 m0 (by decide)

/-- Dynamically typed Python value passed to the solver facade's methods. -/
inductive PyVal where
  | none
  | bool (b : Bool)
  | int (n : Int)
  | float (q : ℚ)
  | str (s : String)
deriving DecidableEq

/-- Model of `isinstance(v, (np.integer, int))`; a Python `bool` is an `int`. -/
def PyVal.is_int_instance : PyVal → Bool
  | PyVal.int _ => true
  | PyVal.bool _ => true
  | _ => false

/-- Model of `isinstance(v, (np.floating, float, np.integer, int))`. -/
def PyVal.is_real_instance : PyVal → Bool
  | PyVal.float _ => true
  | PyVal.int _ => true
  | PyVal.bool _ => true
  | _ => false

/-- Argument tuple delegated to `TD._solve`. -/
structure TDCall where
  dt : PyVal
  Nt : PyVal
  T : PyVal
  dtA : PyVal
  NtA : PyVal
  TA : PyVal
  eqn : PyVal
deriving DecidableEq

/-- State of a `Solvers` facade: the lazily created TD and CG engine slots
(each engine modelled by the list of `_solve` calls delegated to it) and the
private `__detected_vortices_status` boolean. -/
structure SolversState where
  td_engine : Option (List TDCall)
  cg_engine : Option (List PyVal)
  detected_vortices_status : Bool

/-- Source `Solvers._init_td`: construct the TD engine on first use. -/
def Solvers.init_td (s : SolversState) : SolversState :=
  match s.td_engine with
  | none => { s with td_engine := some [] }
  | some _ => s

/-- Source `Solvers._init_cg`: construct the CG engine on first use. -/
def Solvers.init_cg (s : SolversState) : SolversState :=
  match s.cg_engine with
  | none => { s with cg_engine := some [] }
  | some _ => s

/-- Delegation `self._td._solve(...)`: the engine records the call; facade
state other than the engine's own record is untouched. -/
def Solvers.td_engine_solve (s : SolversState) (call : TDCall) : SolversState :=
  match s.td_engine with
  | some calls => { s with td_engine := some (calls ++ [call]) }
  | none => s

/-- Delegation `self._cg._solve(n_iter)`. -/
def Solvers.cg_engine_solve (s : SolversState) (n_iter : PyVal) : SolversState :=
  match s.cg_engine with
  | some calls => { s with cg_engine := some (calls ++ [n_iter]) }
  | none => s

/-- Source `Solvers.vortices_detected` setter: fatally rejects a non-boolean
status, otherwise stores it. -/
def Solvers.vortices_detected_set (s : SolversState) (status : PyVal) :
    SolversState × Except PyExc Unit :=
  match status with
  | PyVal.bool b => ({ s with detected_vortices_status := b }, Except.ok ())
  | _ => (s, Except.error PyExc.assertionError)

/-- Source `Solvers.__solve_td`: type-check `Nt`, `dt`, `NtA`, `dtA`, validate
`eqn` against the two admissible strings, type-check `T` and `TA` when given,
then lazily construct the TD engine and delegate the call to it.  A failed
assertion aborts with the facade state unmodified. -/
def Solvers.solve_td (s : SolversState) (dt Nt T dtA NtA TA eqn : PyVal) :
    SolversState × Except PyExc Unit :=
  if Nt.is_int_instance = false then (s, Except.error PyExc.assertionError)
  else if dt.is_real_instance = false then (s, Except.error PyExc.assertionError)
  else if NtA.is_int_instance = false then (s, Except.error PyExc.assertionError)
  else if dtA.is_real_instance = false then (s, Except.error PyExc.assertionError)
  else if eqn ≠ PyVal.none ∧ eqn ≠ PyVal.str "order_parameter" ∧
          eqn ≠ PyVal.str "vector_potential" then
    (s, Except.error PyExc.assertionError)
  else if T ≠ PyVal.none ∧ T.is_real_instance = false then
    (s, Except.error PyExc.assertionError)
  else if TA ≠ PyVal.none ∧ TA.is_real_instance = false then
    (s, Except.error PyExc.assertionError)
  else
    (Solvers.td_engine_solve (Solvers.init_td s) ⟨dt, Nt, T, dtA, NtA, TA, eqn⟩,
     Except.ok ())

/-- Source `Solvers.td`: default `dtA := dt` and `NtA := Nt` when unset, run
`__solve_td`, then reset `vortices_detected` to `False` on success. -/
def Solvers.td (s : SolversState) (dt Nt T dtA NtA TA eqn : PyVal) :
    SolversState × Except PyExc Unit :=
  let dtA := if dtA = PyVal.none then dt else dtA
  let NtA := if NtA = PyVal.none then Nt else NtA
  match Solvers.solve_td s dt Nt T dtA NtA TA eqn with
  | (s1, Except.ok _) => Solvers.vortices_detected_set s1 (PyVal.bool false)
  | (s1, Except.error e) => (s1, Except.error e)

/-- Source `Solvers.cg`: run `__solve_cg` (lazily constructing the CG engine
and delegating the iteration budget), then reset `vortices_detected`. -/
def Solvers.cg (s : SolversState) (n_iter : PyVal) :
    SolversState × Except PyExc Unit :=
  Solvers.vortices_detected_set
    (Solvers.cg_engine_solve (Solvers.init_cg s) n_iter) (PyVal.bool false)

/-- Concrete facade state for the witnesses: freshly constructed engine slots
and a previously successful vortex detection. -/
def s0 : SolversState :=
  { td_engine := Option.none, cg_engine := Option.none,
    detected_vortices_status := true }

/-- C5: calling `td` with an `eqn` value outside
{order_parameter, vector_potential} is rejected by an assertion before any
solver engine is constructed: the whole facade state — TD slot, CG slot and
vortex-detection status — is returned unchanged. -/
theorem td_invalid_eqn_rejected (s : SolversState)
    (dt Nt T dtA NtA TA eqn : PyVal)
    (h0 : eqn ≠ PyVal.none)
    (h1 : eqn ≠ PyVal.str "order_parameter")
    (h2 : eqn ≠ PyVal.str "vector_potential") :
    (Solvers.td s dt Nt T dtA NtA TA eqn).2
        = Except.error PyExc.assertionError ∧
    (Solvers.td s dt Nt T dtA NtA TA eqn).1 = s ∧
    (Solvers.td s dt Nt T dtA NtA TA eqn).1.td_engine = s.td_engine ∧
    (Solvers.td s dt Nt T dtA NtA TA eqn).1.cg_engine = s.cg_engine ∧
    (Solvers.td s dt Nt T dtA NtA TA eqn).1.detected_vortices_status
        = s.detected_vortices_status := by
  have hsolve : ∀ dtA1 NtA1,
      Solvers.solve_td s dt Nt T dtA1 NtA1 TA eqn
        = (s, Except.error PyExc.assertionError) := by
    intro dtA1 NtA1
    unfold Solvers.solve_td
    split_ifs with g1 g2 g3 g4 g5 g6 g7 <;>
      first
        | rfl
        | exact absurd ⟨h0, h1, h2⟩ g5
  simp only [Solvers.td]
  rw [hsolve]
  exact ⟨rfl, rfl, rfl, rfl, rfl⟩

/-- Witness for C5: `eqn = "invalid_value"` on the fresh facade `s0`. -/
theorem td_invalid_eqn_rejected_witness :
    (Solvers.td s0 (PyVal.float (1/10)) (PyVal.int 1000) PyVal.none PyVal.none
        PyVal.none PyVal.none (PyVal.str "invalid_value")).2
      = Except.error PyExc.assertionError ∧
    (Solvers.td s0 (PyVal.float (1/10)) (PyVal.int 1000) PyVal.none PyVal.none
        PyVal.none PyVal.none (PyVal.str "invalid_value")).1 = s0 ∧
    (Solvers.td s0 (PyVal.float (1/10)) (PyVal.int 1000) PyVal.none PyVal.none
        PyVal.none PyVal.none (PyVal.str "invalid_value")).1.td_engine
      = s0.td_engine ∧
    (Solvers.td s0 (PyVal.float (1/10)) (PyVal.int 1000) PyVal.none PyVal.none
        PyVal.none PyVal.none (PyVal.str "invalid_value")).1.cg_engine
      = s0.cg_engine ∧
    (Solvers.td s0 (PyVal.float (1/10)) (PyVal.int 1000) PyVal.none PyVal.none
        PyVal.none PyVal.none (PyVal.str "invalid_value")).1.detected_vortices_status
      = s0.detected_vortices_status :=
  td_invalid_eqn_rejected s0 (PyVal.float (1/10)) (PyVal.int 1000) PyVal.none
    PyVal.none PyVal.none PyVal.none (PyVal.str "invalid_value")
    (by decide) (by decide) (by decide)

theorem Solvers.solve_td_ok_td_engine (s : SolversState)
    (dt Nt T dtA NtA TA eqn : PyVal)
    (hok : (Solvers.solve_td s dt Nt T dtA NtA TA eqn).2 = Except.ok ()) :
    (Solvers.solve_td s dt Nt T dtA NtA TA eqn).1.td_engine.isSome = true := by
  unfold Solvers.solve_td at hok ⊢
  split_ifs at hok ⊢
  all_goals
    unfold Solvers.td_engine_solve Solvers.init_td
  all_goals
    cases htd : s.td_engine <;> simp [htd]

/-- C7: after every successful `td` call, and after every `cg` call (which
always succeeds), `vortices_detected` reads false, regardless of its prior
value; both drivers delegate to their (lazily constructed) engine first. -/
theorem solvers_reset_vortices_detected (s : SolversState)
    (dt Nt T dtA NtA TA eqn n_iter : PyVal) :
    ((Solvers.td s dt Nt T dtA NtA TA eqn).2 = Except.ok () →
        (Solvers.td s dt Nt T dtA NtA TA eqn).1.detected_vortices_status
          = false ∧
        (Solvers.td s dt Nt T dtA NtA TA eqn).1.td_engine.isSome = true) ∧
    ((Solvers.cg s n_iter).2 = Except.ok () ∧
     (Solvers.cg s n_iter).1.detected_vortices_status = false ∧
     (Solvers.cg s n_iter).1.cg_engine.isSome = true) := by
  constructor
  · intro hok
    simp only [Solvers.td] at hok ⊢
    cases hsolve : Solvers.solve_td s dt Nt T
        (if dtA = PyVal.none then dt else dtA)
        (if NtA = PyVal.none then Nt else NtA) TA eqn with
    | mk s1 r =>
      cases r with
      | error e =>
          rw [hsolve] at hok
          exact Except.noConfusion hok
      | ok u =>
        refine ⟨rfl, ?_⟩
        have h2 : (Solvers.solve_td s dt Nt T
            (if dtA = PyVal.none then dt else dtA)
            (if NtA = PyVal.none then Nt else NtA) TA eqn).2
              = Except.ok () := by rw [hsolve]
        have h3 := Solvers.solve_td_ok_td_engine s dt Nt T
          (if dtA = PyVal.none then dt else dtA)
          (if NtA = PyVal.none then Nt else NtA) TA eqn h2
        rw [hsolve] at h3
        simpa [Solvers.vortices_detected_set] using h3
  · refine ⟨rfl, rfl, ?_⟩
    show ((Solvers.cg s n_iter).1).cg_engine.isSome = true
    unfold Solvers.cg Solvers.vortices_detected_set Solvers.cg_engine_solve
      Solvers.init_cg
    cases hcg : s.cg_engine <;> simp [hcg]

/-- Witness for C7: a valid `td` call and a `cg(n_iter=500)` call on `s0`,
whose vortex status was true beforehand. -/
theorem solvers_reset_vortices_detected_witness :
    (Solvers.td s0 (PyVal.float (1/10)) (PyVal.int 1000) PyVal.none PyVal.none
        PyVal.none PyVal.none PyVal.none).1.detected_vortices_status = false ∧
    (Solvers.td s0 (PyVal.float (1/10)) (PyVal.int 1000) PyVal.none PyVal.none
        PyVal.none PyVal.none PyVal.none).1.td_engine.isSome = true ∧
    (Solvers.cg s0 (PyVal.int 500)).2 = Except.ok () ∧
    (Solvers.cg s0 (PyVal.int 500)).1.detected_vortices_status = false ∧
    (Solvers.cg s0 (PyVal.int 500)).1.cg_engine.isSome = true := by
  have h := solvers_reset_vortices_detected s0 (PyVal.float (1/10))
    (PyVal.int 1000) PyVal.none PyVal.none PyVal.none PyVal.none PyVal.none
    (PyVal.int 500)
  exact ⟨(h.1 rfl).1, (h.1 rfl).2, h.2.1, h.2.2.1, h.2.2.2⟩

/-- C8: `td(dt=0.1, Nt=1000)` with no other arguments is observationally
equivalent to `td(dt=0.1, Nt=1000, dtA=0.1, NtA=1000, T=None, TA=None,
eqn=None)`: the unset `dtA`/`NtA` default to `dt`/`Nt` before validation and
delegation, so the resulting facade state (delegated call record included)
and outcome coincide. -/
theorem td_default_propagation (s : SolversState) :
    Solvers.td s (PyVal.float (1/10)) (PyVal.int 1000) PyVal.none PyVal.none
        PyVal.none PyVal.none PyVal.none
      = Solvers.td s (PyVal.float (1/10)) (PyVal.int 1000) PyVal.none
        (PyVal.float (1/10)) (PyVal.int 1000) PyVal.none PyVal.none := rfl

/-- Witness for C8 at the concrete facade state `s0`. -/
theorem td_default_propagation_witness :
    Solvers.td s0 (PyVal.float (1/10)) (PyVal.int 1000) PyVal.none PyVal.none
        PyVal.none PyVal.none PyVal.none
      = Solvers.td s0 (PyVal.float (1/10)) (PyVal.int 1000) PyVal.none
        (PyVal.float (1/10)) (PyVal.int 1000) PyVal.none PyVal.none :=
  td_default_propagation s0

/-- Source `Grid.interpolate_ab_array_to_c_array`: average adjacent a-lattice
samples along the second axis and adjacent b-lattice samples along the first
axis onto cell centers (`0.5*(a[:, :-1] + a[:, 1:])`,
`0.5*(b[:-1, :] + b[1:, :])`), as index functions over real-valued fields. -/
def interpolate_ab_array_to_c_array (a b : ℕ → ℕ → ℚ) :
    (ℕ → ℕ → ℚ) × (ℕ → ℕ → ℚ) :=
  (fun i j => (1/2 : ℚ) * (a i j + a i (j+1)),
   fun i j => (1/2 : ℚ) * (b i j + b (i+1) j))

/-- Source `Grid.interpolate_ab_array_to_c_array_abs`:
`np.sqrt(np.square(cx) + np.square(cy))` of the two interpolated components
(the square root taken in `ℝ`). -/
noncomputable def interpolate_ab_array_to_c_array_abs (a b : ℕ → ℕ → ℚ) :
    ℕ → ℕ → ℝ :=
  fun i j =>
    Real.sqrt ((((interpolate_ab_array_to_c_array a b).1 i j : ℝ))^2 +
               (((interpolate_ab_array_to_c_array a b).2 i j : ℝ))^2)

/-- C10: the interpolation helper is the arithmetic mean of immediate
neighbors along the respective axis, hence exact on constant fields and exact
at midpoints of linear ramps; the magnitude variant returns the Euclidean
norm of the two interpolated components, in particular `sqrt(v² + w²)` on
constant fields.  (Neither definition consults mask or flags state.) -/
theorem interpolate_exactness (v w qa qb : ℚ) :
    (∀ i j, (interpolate_ab_array_to_c_array
        (fun _ _ => v) (fun _ _ => w)).1 i j = v) ∧
    (∀ i j, (interpolate_ab_array_to_c_array
        (fun _ _ => v) (fun _ _ => w)).2 i j = w) ∧
    (∀ i j, (interpolate_ab_array_to_c_array
        (fun _ j => qa * (j : ℚ) + qb) (fun i _ => qa * (i : ℚ) + qb)).1 i j
      = qa * ((j : ℚ) + 1/2) + qb) ∧
    (∀ i j, (interpolate_ab_array_to_c_array
        (fun _ j => qa * (j : ℚ) + qb) (fun i _ => qa * (i : ℚ) + qb)).2 i j
      = qa * ((i : ℚ) + 1/2) + qb) ∧
    (∀ (a b : ℕ → ℕ → ℚ) i j, interpolate_ab_array_to_c_array_abs a b i j
      = Real.sqrt ((((interpolate_ab_array_to_c_array a b).1 i j : ℝ))^2 +
                   (((interpolate_ab_array_to_c_array a b).2 i j : ℝ))^2)) ∧
    (∀ i j, interpolate_ab_array_to_c_array_abs
        (fun _ _ => v) (fun _ _ => w) i j
      = Real.sqrt ((v : ℝ)^2 + (w : ℝ)^2)) := by
  refine ⟨?_, ?_, ?_, ?_, fun a b i j => rfl, ?_⟩
  · intro i j
    show (1/2 : ℚ) * (v + v) = v
    ring
  · intro i j
    show (1/2 : ℚ) * (w + w) = w
    ring
  · intro i j
    show (1/2 : ℚ) * ((qa * (j : ℚ) + qb) + (qa * ((j + 1 : ℕ) : ℚ) + qb))
        = qa * ((j : ℚ) + 1/2) + qb
    push_cast
    ring
  · intro i j
    show (1/2 : ℚ) * ((qa * (i : ℚ) + qb) + (qa * ((i + 1 : ℕ) : ℚ) + qb))
        = qa * ((i : ℚ) + 1/2) + qb
    push_cast
    ring
  · intro i j
    show Real.sqrt (((((1/2 : ℚ) * (v + v) : ℚ) : ℝ))^2 +
                    ((((1/2 : ℚ) * (w + w) : ℚ) : ℝ))^2)
        = Real.sqrt ((v : ℝ)^2 + (w : ℝ)^2)
    congr 1
    push_cast
    ring

/-- Witness for C10 at constant fields 3 and 4 (ramp slope 2, offset 1). -/
theorem interpolate_exactness_witness :
    (interpolate_ab_array_to_c_array
        (fun _ _ => (3 : ℚ)) (fun _ _ => (4 : ℚ))).1 0 0 = 3 ∧
    (interpolate_ab_array_to_c_array
        (fun _ _ => (3 : ℚ)) (fun _ _ => (4 : ℚ))).2 0 0 = 4 ∧
    (interpolate_ab_array_to_c_array
        (fun _ j => (2 : ℚ) * (j : ℚ) + 1) (fun i _ => (2 : ℚ) * (i : ℚ) + 1)).1
        0 0 = 2 * (((0 : ℕ) : ℚ) + 1/2) + 1 ∧
    interpolate_ab_array_to_c_array_abs
        (fun _ _ => (3 : ℚ)) (fun _ _ => (4 : ℚ)) 0 0
      = Real.sqrt (((3 : ℚ) : ℝ)^2 + ((4 : ℚ) : ℝ)^2) := by
  have h := interpolate_exactness 3 4 2 1
  exact ⟨h.1 0 0, h.2.1 0 0, h.2.2.1 0 0, h.2.2.2.2.2 0 0⟩
